import Mathlib

/-!
Verification of `sandptel/rag-api-server` (src/src/main.rs) against its
natural-language specification. The HTTP router, the static-asset handler and
the startup sequence are embedded from the source; the RAG pipeline, the
vector-store client and the prompt assembler live in modules (`backend`,
`utils`) whose source is not in the repository snapshot, so they are modelled
from the specification where a claim needs them.
-/

namespace RagServer

/-! ## HTTP layer (embedded from src/src/main.rs) -/

/-- An inbound HTTP request, reduced to the parts `handle_request` inspects:
the URI path. -/
structure HttpRequest where
  path : String
deriving Repr, DecidableEq

/-- An HTTP response: status code, optional content type, body (bytes as a
string). `Response::new(body)` in hyper produces status 200 with no
content-type header. -/
structure HttpResponse where
  status : Nat
  contentType : Option String
  body : String
deriving Repr, DecidableEq

/-- The error type of the hyper service (`hyper::Error`); opaque. -/
structure HyperError where
  msg : String
deriving Repr, DecidableEq

/-- Splits a character list at `'/'`, keeping only non-empty components;
`acc` holds the characters of the current component in reverse. -/
def segmentsAux : List Char → List Char → List String
  | [], acc => if acc = [] then [] else [String.mk acc.reverse]
  | c :: rest, acc =>
    if c = '/' then
      if acc = [] then segmentsAux rest []
      else String.mk acc.reverse :: segmentsAux rest []
    else segmentsAux rest (c :: acc)

/-- The components of a path as produced by `PathBuf::iter()` on Unix
(`Path::components` normalization): a leading `"/"` root component when the
path is absolute; repeated separators and trailing separators collapse; a
`"."` component is normalized away except at the beginning of a rootless
path; `".."` components are kept. -/
def pathComponents (s : String) : List String :=
  match s.data with
  | '/' :: _ => "/" :: (segmentsAux s.data []).filter (fun t => t ≠ ".")
  | _ =>
    match segmentsAux s.data [] with
    | "." :: rest => "." :: rest.filter (fun t => t ≠ ".")
    | raw => raw.filter (fun t => t ≠ ".")

/-- The components remaining after `handle_request` discards the first one
(main.rs lines 474-476: the first `path_iter.next()` consumes the root of an
absolute path — or the first component of a rootless one). The head of this
list, or `""` when it is empty, is what `root_path` is built from. -/
def pathSegments (s : String) : List String :=
  (pathComponents s).drop 1

/-- The path actually read by `static_response` (main.rs lines 487-490):
`"/"` is served as `"/index.html"`, everything else as itself. -/
def resolveStaticPath (path_str : String) : String :=
  if path_str = "/" then "/index.html" else path_str

/-- `static_response` (main.rs lines 486-509). `fs` models `std::fs::read`
(`none` = unreadable), `mimeGuess` models `mime_guess::from_path` with
`first_or_text_plain` as `getD "text/plain"`. The read path is the literal
`format!("\x7broot\x7d/\x7bpath\x7d")`, i.e. `root ++ "/" ++ path`. -/
def static_response (fs : String → Option String) (mimeGuess : String → Option String)
    (path_str : String) (root : String) : HttpResponse :=
  let path := resolveStaticPath path_str
  match fs (root ++ "/" ++ path) with
  | some content =>
      { status := 200
        contentType := some ((mimeGuess path).getD "text/plain")
        body := content }
  | none =>
      { status := 404
        contentType := some "text/html"
        body := (fs (root ++ "/404.html")).getD "" }

/-- `handle_request` (main.rs lines 466-484). `root_path` is `"/"` plus the
first path segment (empty when there is none); `"/echo"` answers directly,
`"/v1"` forwards to the backend handler (modelled as a function parameter),
anything else goes to `static_response`. -/
def handle_request (backendHandler : HttpRequest → Except HyperError HttpResponse)
    (fs mimeGuess : String → Option String)
    (req : HttpRequest) (web_ui : String) : Except HyperError HttpResponse :=
  let root_path := "/" ++ ((pathSegments req.path).headD "")
  if root_path = "/echo" then
    .ok { status := 200, contentType := none, body := "echo test" }
  else if root_path = "/v1" then
    backendHandler req
  else
    .ok (static_response fs mimeGuess req.path web_ui)

/-! ## Startup (embedded from `main`, src/src/main.rs lines 34-464) -/

/-- `error::ServerError` variants used by main.rs (the `error` module source is
absent; variants and their use sites are visible in main.rs). -/
inductive ServerError where
  | ArgumentError (msg : String)
  | SocketAddr (msg : String)
  | InvalidPromptTemplateType (msg : String)
  | Operation (msg : String)
deriving Repr, DecidableEq

/-- `QdrantConfig` (main.rs lines 511-517). `limit` models `u64` as `Nat`
(no numeric overflow arithmetic ever touches it); `score_threshold` models
`f32` as `ℚ` (it is only stored and compared, never computed with). -/
structure QdrantConfig where
  url : String
  collection_name : String
  limit : Nat
  score_threshold : ℚ
deriving Repr, DecidableEq

/-- `once_cell::sync::OnceCell::set`: succeeds exactly on an empty cell,
never overwrites a stored value. Returns the new cell contents and whether
the set succeeded. -/
def onceCellSet {α : Type} (cell : Option α) (v : α) : Option α × Bool :=
  match cell with
  | none => (some v, true)
  | some w => (some w, false)

/-- `llama_core::ModelInfo`, reduced to the fields main.rs sets:
name, alias and the context size copied into its metadata. -/
structure ModelInfo where
  model_name : String
  model_alias : String
  ctx_size : Nat
deriving Repr, DecidableEq

/-- Command-line matches after clap parsing; `none` means the flag was
omitted. Per-flag defaults from the `Arg` declarations (main.rs lines 35-169)
are applied at `get` time via `getD`, mirroring clap's `default_value`. -/
structure Cli where
  socket_addr : Option String := none
  model_name : Option (List String) := none
  model_alias : Option (List String) := none
  ctx_size : Option (List Nat) := none
  reverse_prompt : Option String := none
  prompt_template : Option String := none
  system_prompt : Option String := none
  qdrant_url : Option String := none
  qdrant_collection_name : Option String := none
  qdrant_limit : Option Nat := none
  qdrant_score_threshold : Option ℚ := none
  web_ui : Option String := none
deriving Repr, DecidableEq

/-- Outcomes of the external calls `main` makes, supplied as an oracle:
whether a socket address parses (`SocketAddr::parse`), whether a URL passes
`is_valid_url` (utils.rs, absent from the snapshot), and whether llama_core's
`init_core_context` and `get_plugin_info` succeed. -/
structure StartupExt where
  addrParses : String → Bool
  is_valid_url : String → Bool
  coreInitOk : Bool
  pluginInfoOk : Bool

/-- Observable state `main` builds up: the two global `OnceCell`s together
with how many `set` calls were issued on each, the model lists handed to
`init_core_context`, whether that call succeeded, and whether the HTTP
server was bound. -/
structure StartupState where
  globalSystemPrompt : Option String := none
  systemPromptSets : Nat := 0
  qdrantConfig : Option QdrantConfig := none
  qdrantConfigSets : Nat := 0
  chatModels : List ModelInfo := []
  embeddingModels : List ModelInfo := []
  coreContextInit : Bool := false
  serverBound : Bool := false
deriving Repr, DecidableEq

/-- main.rs line 22. -/
def DEFAULT_SOCKET_ADDRESS : String := "0.0.0.0:8080"

/-- The template names accepted by the `prompt_template` value parser
(main.rs lines 83-104); `PromptTemplateType::from_str` accepts exactly the
values clap lets through here. -/
def validPromptTemplates : List String :=
  ["llama-2-chat", "codellama-instruct", "codellama-super-instruct",
   "mistral-instruct", "mistrallite", "openchat", "human-assistant",
   "vicuna-1.0-chat", "vicuna-1.1-chat", "vicuna-llava", "chatml",
   "baichuan-2", "wizard-coder", "zephyr", "stablelm-zephyr", "intel-neural",
   "deepseek-chat", "deepseek-coder", "solar-instruct", "gemma-instruct"]

/-- The `QdrantConfig` value built in main.rs lines 337-342, with the clap
defaults of lines 115-140 (url `http://localhost:6333`, collection
`default`, limit `3`, score threshold `0.4 = 2/5`). -/
def qdrantConfigOf (cli : Cli) : QdrantConfig :=
  { url := cli.qdrant_url.getD "http://localhost:6333"
    collection_name := cli.qdrant_collection_name.getD "default"
    limit := cli.qdrant_limit.getD 3
    score_threshold := cli.qdrant_score_threshold.getD (2/5) }

/-- The body of `main` (main.rs lines 34-464) up to binding the server, in
source order: socket address, model names, model aliases, context sizes,
prompt template, global system prompt cell, qdrant URL validation and config
cell, core-context initialization, plugin info, server bind. Returns the
state reached together with main's `Result`. -/
def mainRun (ext : StartupExt) (cli : Cli) : StartupState × Except ServerError Unit :=
  let s0 : StartupState := {}
  let socket_addr := cli.socket_addr.getD DEFAULT_SOCKET_ADDRESS
  if ext.addrParses socket_addr = false then
    (s0, .error (.SocketAddr "invalid socket address"))
  else
  match cli.model_name with
  | none =>
    (s0, .error (.ArgumentError "Failed to parse the value of `--model-names` CLI option"))
  | some model_names =>
  if model_names.length ≠ 2 then
    (s0, .error (.ArgumentError "LlamaEdge RAG API server requires a chat model and an embedding model."))
  else
  let model_aliases := cli.model_alias.getD ["default", "embedding"]
  if model_aliases.length ≠ 2 then
    (s0, .error (.ArgumentError "LlamaEdge RAG API server requires two model aliases: one for chat model, one for embedding model."))
  else
  let ctx_sizes := cli.ctx_size.getD [4096, 384]
  if ctx_sizes.length ≠ 2 then
    (s0, .error (.ArgumentError "LlamaEdge RAG API server requires two context sizes: one for chat model, one for embedding model."))
  else
  match cli.prompt_template with
  | none =>
    (s0, .error (.ArgumentError "The `prompt_template` CLI option is required"))
  | some prompt_template =>
  if validPromptTemplates.contains prompt_template = false then
    (s0, .error (.InvalidPromptTemplateType "unknown prompt template type"))
  else
  let global_system_prompt := cli.system_prompt.getD ""
  let set1 := onceCellSet s0.globalSystemPrompt global_system_prompt
  let s1 := { s0 with globalSystemPrompt := set1.1,
                      systemPromptSets := s0.systemPromptSets + 1 }
  if set1.2 = false then
    (s1, .error (.Operation "Failed to set `GLOBAL_SYSTEM_PROMPT`."))
  else
  let qdrant_url := cli.qdrant_url.getD "http://localhost:6333"
  if ext.is_valid_url qdrant_url = false then
    (s1, .error (.ArgumentError ("The URL of Qdrant REST API is invalid: " ++ qdrant_url ++ ".")))
  else
  let set2 := onceCellSet s1.qdrantConfig (qdrantConfigOf cli)
  let s2 := { s1 with qdrantConfig := set2.1,
                      qdrantConfigSets := s1.qdrantConfigSets + 1 }
  if set2.2 = false then
    (s2, .error (.Operation "Failed to set '`QDRANT_CONFIG`."))
  else
  let chat_models : List ModelInfo :=
    [⟨(model_names.getD 0 "").trim, (model_aliases.getD 0 "").trim, ctx_sizes.getD 0 0⟩]
  let embedding_models : List ModelInfo :=
    [⟨(model_names.getD 1 "").trim, (model_aliases.getD 1 "").trim, ctx_sizes.getD 1 0⟩]
  let s3 := { s2 with chatModels := chat_models, embeddingModels := embedding_models }
  if ext.coreInitOk = false then
    (s3, .error (.Operation "Failed to initialize the core context."))
  else
  let s4 := { s3 with coreContextInit := true }
  if ext.pluginInfoOk = false then
    (s4, .error (.Operation "failed to get plugin info"))
  else
  let s5 := { s4 with serverBound := true }
  (s5, .ok ())

/-! ## Vector Store Client (spec §4.4; `backend` module absent from snapshot) -/

/-- A retrieved document (spec §3): identifier, similarity score, text
payload. Scores are modelled as `ℚ` (floats are only compared, never computed
with). -/
structure RetrievedDocument where
  id : String
  score : ℚ
  payload : String
deriving Repr, DecidableEq

/-- Modelled from the spec: the Vector Store Client `search` of spec §4.4
(the `backend` module holding it is not in the snapshot). The store's raw
response — or its timeout/connection failure — is a parameter; the client
filters out entries below `scoreThreshold`, truncates to `limit`, and maps
failure to an empty list. It does not re-sort: the response is assumed
pre-sorted descending by the store. -/
def vsSearch (storeResponse : Except Unit (List RetrievedDocument))
    (limit : Nat) (scoreThreshold : ℚ) : List RetrievedDocument :=
  match storeResponse with
  | .error _ => []
  | .ok docs => (docs.filter (fun d => scoreThreshold ≤ d.score)).take limit

/-- Strictly descending by score (spec §3: "ordered by descending score";
the claims say strictly). -/
def strictDescByScore (l : List RetrievedDocument) : Prop :=
  l.Pairwise (fun a b => b.score < a.score)

instance (l : List RetrievedDocument) : Decidable (strictDescByScore l) := by
  unfold strictDescByScore; infer_instance

/-! ## Prompt Assembler (spec §4.5; `backend` module absent from snapshot) -/

/-- Message roles (spec §3). -/
inductive Role where
  | system
  | user
  | assistant
deriving Repr, DecidableEq

/-- A conversation message (spec §3). -/
structure ChatMessage where
  role : Role
  content : String
deriving Repr, DecidableEq

/-- An augmented prompt (spec §3): system segment, context documents
(highest score first; empty list = no context segment), truncated history
(oldest first). -/
structure AugmentedPrompt where
  systemPrompt : String
  contextDocs : List RetrievedDocument
  history : List ChatMessage
deriving Repr, DecidableEq

/-- Token estimate of one message under estimator `tok`. -/
def msgTokens (tok : String → Nat) (m : ChatMessage) : Nat := tok m.content

/-- Token estimate of a history. -/
def histTokens (tok : String → Nat) (l : List ChatMessage) : Nat :=
  (l.map (msgTokens tok)).sum

/-- Token estimate of one context document. -/
def docTokens (tok : String → Nat) (d : RetrievedDocument) : Nat := tok d.payload

/-- Token estimate of the context segment. -/
def ctxTokens (tok : String → Nat) (ds : List RetrievedDocument) : Nat :=
  (ds.map (docTokens tok)).sum

/-- Estimated total of an augmented prompt. -/
def promptTokens (tok : String → Nat) (p : AugmentedPrompt) : Nat :=
  tok p.systemPrompt + ctxTokens tok p.contextDocs + histTokens tok p.history

/-- Drop items from the front of the list until `base` plus the total cost of
the remainder fits in `budget` (possibly dropping everything). -/
def keptSuffix {α : Type} (cost : α → Nat) (base budget : Nat) : List α → List α
  | [] => []
  | a :: rest =>
    if base + (cost a + (rest.map cost).sum) ≤ budget then a :: rest
    else keptSuffix cost base budget rest

/-- Drop context documents lowest-score-first (the list is descending, so
from the back) until `base` plus the context fits in `budget`. -/
def dropDocsLowest (tok : String → Nat) (base budget : Nat)
    (docs : List RetrievedDocument) : List RetrievedDocument :=
  (keptSuffix (docTokens tok) base budget docs.reverse).reverse

/-- Split a history as `pre ++ [latest] ++ post` where `latest` is the most
recent user-role message, when one exists. -/
def splitAtLastUser : List ChatMessage →
    Option (List ChatMessage × ChatMessage × List ChatMessage)
  | [] => none
  | m :: rest =>
    match splitAtLastUser rest with
    | some (pre, u, post) => some (m :: pre, u, post)
    | none => if m.role = Role.user then some ([], m, rest) else none

/-- The text of the most recent user-role message (spec §4.2 step 2). -/
def lastUserContent (hist : List ChatMessage) : Option String :=
  (splitAtLastUser hist).map (fun t => t.2.1.content)

/-- Token estimate of the latest user message, `0` when there is none. -/
def latestUserTokens (tok : String → Nat) (hist : List ChatMessage) : Nat :=
  ((lastUserContent hist).map tok).getD 0

/-- The assembler's only failure (spec §4.5: ValidationError). -/
inductive AssembleError where
  | validation
deriving Repr, DecidableEq

/-- Modelled from the spec: the Prompt Assembler of spec §4.5 (the `backend`
module holding it is not in the snapshot). Segments are system prompt,
context (if non-empty), history oldest first. If the estimated total exceeds
`budget`: first drop history from the oldest end, never the latest user
message; once history is reduced to just the latest user message, drop
context documents lowest score first; fail with ValidationError exactly when
the system prompt plus the latest user message alone exceed the budget. -/
def assemble (tok : String → Nat) (systemPrompt : String)
    (docs : List RetrievedDocument) (hist : List ChatMessage) (budget : Nat) :
    Except AssembleError AugmentedPrompt :=
  if promptTokens tok ⟨systemPrompt, docs, hist⟩ ≤ budget then
    .ok ⟨systemPrompt, docs, hist⟩
  else
    match splitAtLastUser hist with
    | none =>
      -- no user message: the whole history is droppable
      let hist1 := keptSuffix (msgTokens tok) (tok systemPrompt + ctxTokens tok docs) budget hist
      if hist1 ≠ [] then .ok ⟨systemPrompt, docs, hist1⟩
      else
        let docs1 := dropDocsLowest tok (tok systemPrompt) budget docs
        if tok systemPrompt + ctxTokens tok docs1 ≤ budget then
          .ok ⟨systemPrompt, docs1, []⟩
        else .error .validation
    | some (pre, latest, post) =>
      let baseLatest := tok systemPrompt + ctxTokens tok docs + msgTokens tok latest
      let pre1 := keptSuffix (msgTokens tok) (baseLatest + histTokens tok post) budget pre
      if pre1 ≠ [] then .ok ⟨systemPrompt, docs, pre1 ++ latest :: post⟩
      else
        let post1 := keptSuffix (msgTokens tok) baseLatest budget post
        if post1 ≠ [] then .ok ⟨systemPrompt, docs, latest :: post1⟩
        else if baseLatest ≤ budget then .ok ⟨systemPrompt, docs, [latest]⟩
        else
          let docs1 := dropDocsLowest tok (tok systemPrompt + msgTokens tok latest) budget docs
          if tok systemPrompt + msgTokens tok latest + ctxTokens tok docs1 ≤ budget then
            .ok ⟨systemPrompt, docs1, [latest]⟩
          else .error .validation

/-! ## RAG Pipeline (spec §4.2; `backend` module absent from snapshot) -/

/-- Generation parameters passed through unmodified (spec §3). -/
structure GenParams where
  temperature : Option ℚ := none
  max_tokens : Option Nat := none
  stop : Option (List String) := none
  stream : Bool := false
deriving Repr, DecidableEq

/-- A generation request (spec §3). -/
structure GenerationRequest where
  model : String
  messages : List ChatMessage
  params : GenParams
deriving Repr, DecidableEq

/-- Caller-visible pipeline errors (spec §7): ValidationError and
GenerationError; UpstreamDegraded is recovered locally and has no variant
here. -/
inductive PipelineError where
  | validation (msg : String)
  | generation (code : String)
deriving Repr, DecidableEq

/-- A generation outcome (spec §3): one complete response or a finite chunk
sequence. -/
inductive GenerationOutcome where
  | complete (text : String)
  | streamed (chunks : List String)
deriving Repr, DecidableEq

/-- The three network/engine calls the pipeline suspends on (spec §5),
supplied as oracles; `.error` is a timeout, connection failure or engine
error. -/
structure PipelineOracles where
  embed : String → Except Unit (List ℚ)
  storeSearch : List ℚ → Except Unit (List RetrievedDocument)
  generate : AugmentedPrompt → GenParams → Except Unit GenerationOutcome

/-- Configuration the pipeline reads (spec §3, §9): chat alias, global
system prompt, chat context size, token estimator, vector-store settings. -/
structure RagConfig where
  chatAlias : String
  systemPrompt : String
  ctxSize : Nat
  tok : String → Nat
  qdrant : QdrantConfig

/-- What one pipeline run produces: the caller-visible result, whether a
degradation event was recorded, and whether the Generation Client was
called. -/
structure PipelineResult where
  result : Except PipelineError GenerationOutcome
  degraded : Bool
  genCalled : Bool
deriving Repr

/-- Modelled from the spec, steps 2-4 of the RAG Pipeline of spec §4.2 (the
`backend` module holding it is not in the snapshot): locate the latest user
message (none → skip retrieval, no degradation), embed it and search the
store, degrading to an empty context with a recorded degradation event on
either failure. Returns the retrieved documents and the degradation flag. -/
def retrieveDocs (cfg : RagConfig) (O : PipelineOracles)
    (msgs : List ChatMessage) : List RetrievedDocument × Bool :=
  match lastUserContent msgs with
  | none => ([], false)
  | some q =>
    match O.embed q with
    | .error _ => ([], true)
    | .ok v =>
      match O.storeSearch v with
      | .error _ => ([], true)
      | .ok resp =>
        (vsSearch (.ok resp) cfg.qdrant.limit cfg.qdrant.score_threshold, false)

/-- Modelled from the spec: the RAG Pipeline of spec §4.2 (the `backend`
module holding it is not in the snapshot). Validate; retrieve via
`retrieveDocs`; assemble (failure is fatal ValidationError, no generation
call); generate. -/
def ragPipeline (cfg : RagConfig) (O : PipelineOracles)
    (req : GenerationRequest) : PipelineResult :=
  if req.model ≠ cfg.chatAlias ∨ req.messages = [] then
    ⟨.error (.validation "invalid request"), false, false⟩
  else
    let retrieval := retrieveDocs cfg O req.messages
    match assemble cfg.tok cfg.systemPrompt retrieval.1 req.messages cfg.ctxSize with
    | .error _ => ⟨.error (.validation "prompt assembly failed"), retrieval.2, false⟩
    | .ok prompt =>
      match O.generate prompt req.params with
      | .error _ => ⟨.error (.generation "generation failed"), retrieval.2, true⟩
      | .ok out => ⟨.ok out, retrieval.2, true⟩

/-- Continuing the pipeline from prompt assembly onward with an empty
retrieved context (spec §4.2 steps 5-8). -/
def emptyContextResult (cfg : RagConfig) (O : PipelineOracles)
    (req : GenerationRequest) : Except PipelineError GenerationOutcome :=
  match assemble cfg.tok cfg.systemPrompt [] req.messages cfg.ctxSize with
  | .error _ => .error (.validation "prompt assembly failed")
  | .ok prompt =>
    match O.generate prompt req.params with
    | .error _ => .error (.generation "generation failed")
    | .ok out => .ok out

/-! ## Concrete inputs used by witnesses -/

/-- An external-call oracle where every call succeeds. -/
def extAllOk : StartupExt := ⟨fun _ => true, fun _ => true, true, true⟩

/-- An external-call oracle whose URL validation rejects everything. -/
def extBadUrl : StartupExt := ⟨fun _ => true, fun _ => false, true, true⟩

/-- A correct command line: two model names, a valid template, every other
flag left to its default. -/
def cliGood : Cli :=
  { model_name := some ["m1", "m2"], prompt_template := some "chatml" }

/-- A command line supplying only one model name. -/
def cliOneModel : Cli :=
  { model_name := some ["m1"], prompt_template := some "chatml" }

/-- A pipeline configuration with an empty system prompt, a large budget and
length-based token estimation. -/
def cfgLarge : RagConfig :=
  ⟨"default", "", 100, String.length, ⟨"http://localhost:6333", "default", 3, 0⟩⟩

/-- A pipeline configuration whose budget is smaller than its own system
prompt. -/
def cfgSmall : RagConfig :=
  ⟨"default", "0123456789", 5, String.length, ⟨"http://localhost:6333", "default", 3, 0⟩⟩

/-- Oracles whose embedding call fails and whose generation returns a fixed
complete response. -/
def oraclesEmbedFail : PipelineOracles :=
  ⟨fun _ => .error (), fun _ => .error (), fun _ _ => .ok (.complete "OK")⟩

/-- Oracles where every call succeeds, searching an empty store. -/
def oraclesOk : PipelineOracles :=
  ⟨fun _ => .ok [], fun _ => .ok [], fun _ _ => .ok (.complete "OK")⟩

/-- A valid request with one user message. -/
def reqHello : GenerationRequest := ⟨"default", [⟨Role.user, "hello"⟩], {}⟩

/-! ## Helper lemmas -/

lemma slashPrefix_inj {a b : String} (h : "/" ++ a = "/" ++ b) : a = b := by
  have hd := congrArg String.data h
  simp [String.data_append] at hd
  exact String.ext hd

/-! ## Router theorems -/

/-- C4: for every inbound HTTP request, dispatch is decided by the first
path segment of the URI: first segment `echo` returns the trivial
acknowledgment, first segment `v1` forwards to the RAG pipeline handler with
its result (including errors) propagated unchanged, and any other first
segment is handed to the static-asset handler. -/
theorem handle_request_dispatch
    (backendHandler : HttpRequest → Except HyperError HttpResponse)
    (fs mimeGuess : String → Option String) (req : HttpRequest) (web_ui : String) :
    ((pathSegments req.path).headD "" = "echo" →
      handle_request backendHandler fs mimeGuess req web_ui =
        .ok ⟨200, none, "echo test"⟩) ∧
    ((pathSegments req.path).headD "" = "v1" →
      handle_request backendHandler fs mimeGuess req web_ui = backendHandler req) ∧
    ((pathSegments req.path).headD "" ≠ "echo" →
      (pathSegments req.path).headD "" ≠ "v1" →
      handle_request backendHandler fs mimeGuess req web_ui =
        .ok (static_response fs mimeGuess req.path web_ui)) := by
  refine ⟨?_, ?_, ?_⟩
  · intro h
    simp only [handle_request]
    rw [h, if_pos (by decide)]
  · intro h
    simp only [handle_request]
    rw [h, if_neg (by decide), if_pos (by decide)]
  · intro h1 h2
    unfold handle_request
    rw [if_neg, if_neg]
    · intro hc
      exact h2 (slashPrefix_inj (hc.trans (by decide)))
    · intro hc
      exact h1 (slashPrefix_inj (hc.trans (by decide)))

/-- Witness for C4: the URI `/v1/chat/completions` has first segment `v1`
and is forwarded to the backend handler, whose result is returned
unchanged. -/
theorem handle_request_dispatch_witness :
    (pathSegments "/v1/chat/completions").headD "" = "v1" ∧
    handle_request (fun _ => .ok ⟨201, none, "B"⟩) (fun _ => none) (fun _ => none)
      ⟨"/v1/chat/completions"⟩ "chatbot-ui" = .ok ⟨201, none, "B"⟩ :=
  ⟨by decide,
   (handle_request_dispatch (fun _ => .ok ⟨201, none, "B"⟩) (fun _ => none)
     (fun _ => none) ⟨"/v1/chat/completions"⟩ "chatbot-ui").2.1 (by decide)⟩

/-- C8: routing ignores everything after the first path segment: any URI
whose first segment is `echo` gets status 200 with body `echo test`, and any
URI whose first segment is `v1` is passed to the backend handler regardless
of the remaining segments. -/
theorem handle_request_first_segment_routing
    (backendHandler : HttpRequest → Except HyperError HttpResponse)
    (fs mimeGuess : String → Option String) (req : HttpRequest) (web_ui : String) :
    ((pathSegments req.path).headD "" = "echo" →
      ∃ resp, handle_request backendHandler fs mimeGuess req web_ui = .ok resp ∧
        resp.status = 200 ∧ resp.body = "echo test") ∧
    ((pathSegments req.path).headD "" = "v1" →
      handle_request backendHandler fs mimeGuess req web_ui = backendHandler req) := by
  constructor
  · intro h
    refine ⟨⟨200, none, "echo test"⟩, ?_, rfl, rfl⟩
    simp only [handle_request]
    rw [h, if_pos (by decide)]
  · intro h
    simp only [handle_request]
    rw [h, if_neg (by decide), if_pos (by decide)]

/-- Witness for C8: `/echo/anything` has first segment `echo` and is
answered with status 200 and body `echo test`. -/
theorem handle_request_first_segment_routing_witness :
    (pathSegments "/echo/anything").headD "" = "echo" ∧
    ∃ resp, handle_request (fun _ => .error ⟨"boom"⟩) (fun _ => none) (fun _ => none)
        ⟨"/echo/anything"⟩ "chatbot-ui" = .ok resp ∧
      resp.status = 200 ∧ resp.body = "echo test" :=
  ⟨by decide,
   (handle_request_first_segment_routing (fun _ => .error ⟨"boom"⟩) (fun _ => none)
     (fun _ => none) ⟨"/echo/anything"⟩ "chatbot-ui").1 (by decide)⟩

/-- C9: for every request path whose first segment is neither `echo` nor
`v1`, `handle_request` is total and never returns `Err`: it answers with
`static_response`, where `/` is served as `/index.html`, a readable file
`root ++ "/" ++ path` yields status 200 with its contents and a guessed
content type, and an unreadable one yields status 404 with the contents of
`root ++ "/404.html"` or an empty body. -/
theorem static_fallback_total
    (backendHandler : HttpRequest → Except HyperError HttpResponse)
    (fs mimeGuess : String → Option String) (req : HttpRequest) (web_ui : String) :
    ((pathSegments req.path).headD "" ≠ "echo" →
      (pathSegments req.path).headD "" ≠ "v1" →
      handle_request backendHandler fs mimeGuess req web_ui =
        .ok (static_response fs mimeGuess req.path web_ui)) ∧
    resolveStaticPath "/" = "/index.html" ∧
    (∀ path_str root c, fs (root ++ "/" ++ resolveStaticPath path_str) = some c →
      static_response fs mimeGuess path_str root =
        ⟨200, some ((mimeGuess (resolveStaticPath path_str)).getD "text/plain"), c⟩) ∧
    (∀ path_str root, fs (root ++ "/" ++ resolveStaticPath path_str) = none →
      static_response fs mimeGuess path_str root =
        ⟨404, some "text/html", (fs (root ++ "/404.html")).getD ""⟩) := by
  refine ⟨?_, rfl, ?_, ?_⟩
  · intro h1 h2
    unfold handle_request
    rw [if_neg, if_neg]
    · intro hc
      exact h2 (slashPrefix_inj (hc.trans (by decide)))
    · intro hc
      exact h1 (slashPrefix_inj (hc.trans (by decide)))
  · intro path_str root c hc
    simp only [static_response]
    rw [hc]
  · intro path_str root hc
    simp only [static_response]
    rw [hc]

/-- Witness for C9: `/style.css` is neither `echo` nor `v1`, so the request
goes to `static_response`; with an empty filesystem the answer is 404 with
an empty body. -/
theorem static_fallback_total_witness :
    handle_request (fun _ => .error ⟨"boom"⟩) (fun _ => none) (fun _ => none)
      ⟨"/style.css"⟩ "chatbot-ui" =
      .ok (static_response (fun _ => none) (fun _ => none) "/style.css" "chatbot-ui") ∧
    static_response (fun _ => none) (fun _ => none) "/style.css" "chatbot-ui" =
      ⟨404, some "text/html", ""⟩ :=
  ⟨(static_fallback_total (fun _ => .error ⟨"boom"⟩) (fun _ => none) (fun _ => none)
      ⟨"/style.css"⟩ "chatbot-ui").1 (by decide) (by decide),
   (static_fallback_total (fun _ => .error ⟨"boom"⟩) (fun _ => none) (fun _ => none)
      ⟨"/style.css"⟩ "chatbot-ui").2.2.2 "/style.css" "chatbot-ui" rfl⟩

/-- Invariant of `mainRun`: each `OnceCell` receives at most one set, holds
either nothing or the startup value, and a bound server implies full
successful initialization. -/
lemma mainRun_state_inv (ext : StartupExt) (cli : Cli) :
    (mainRun ext cli).1.systemPromptSets ≤ 1 ∧
    (mainRun ext cli).1.qdrantConfigSets ≤ 1 ∧
    ((mainRun ext cli).1.qdrantConfig = none ∨
      (mainRun ext cli).1.qdrantConfig = some (qdrantConfigOf cli)) ∧
    ((mainRun ext cli).1.globalSystemPrompt = none ∨
      (mainRun ext cli).1.globalSystemPrompt = some (cli.system_prompt.getD "")) ∧
    ((mainRun ext cli).1.serverBound = true →
      (mainRun ext cli).2 = .ok () ∧
      (mainRun ext cli).1.systemPromptSets = 1 ∧
      (mainRun ext cli).1.qdrantConfigSets = 1 ∧
      (mainRun ext cli).1.globalSystemPrompt = some (cli.system_prompt.getD "") ∧
      (mainRun ext cli).1.qdrantConfig = some (qdrantConfigOf cli) ∧
      (mainRun ext cli).1.coreContextInit = true ∧
      (mainRun ext cli).1.chatModels.length = 1 ∧
      (mainRun ext cli).1.embeddingModels.length = 1 ∧
      ext.is_valid_url (cli.qdrant_url.getD "http://localhost:6333") = true) := by
  have hTF : ¬(true = false) := fun h => Bool.noConfusion h
  unfold mainRun
  by_cases h1 : ext.addrParses (cli.socket_addr.getD DEFAULT_SOCKET_ADDRESS) = false
  · rw [if_pos h1]
    exact ⟨by simp, by simp, Or.inl rfl, Or.inl rfl, fun hb => Bool.noConfusion hb⟩
  · rw [if_neg h1]
    cases hmn : cli.model_name with
    | none =>
      exact ⟨by simp, by simp, Or.inl rfl, Or.inl rfl, fun hb => Bool.noConfusion hb⟩
    | some ns =>
      dsimp only
      by_cases hlen : ns.length ≠ 2
      · rw [if_pos hlen]
        exact ⟨by simp, by simp, Or.inl rfl, Or.inl rfl, fun hb => Bool.noConfusion hb⟩
      · rw [if_neg hlen]
        by_cases hal : (cli.model_alias.getD ["default", "embedding"]).length ≠ 2
        · rw [if_pos hal]
          exact ⟨by simp, by simp, Or.inl rfl, Or.inl rfl, fun hb => Bool.noConfusion hb⟩
        · rw [if_neg hal]
          by_cases hctx : (cli.ctx_size.getD [4096, 384]).length ≠ 2
          · rw [if_pos hctx]
            exact ⟨by simp, by simp, Or.inl rfl, Or.inl rfl, fun hb => Bool.noConfusion hb⟩
          · rw [if_neg hctx]
            cases hpt : cli.prompt_template with
            | none =>
              exact ⟨by simp, by simp, Or.inl rfl, Or.inl rfl, fun hb => Bool.noConfusion hb⟩
            | some t =>
              dsimp only
              by_cases htp : validPromptTemplates.contains t = false
              · rw [if_pos htp]
                exact ⟨by simp, by simp, Or.inl rfl, Or.inl rfl, fun hb => Bool.noConfusion hb⟩
              · rw [if_neg htp]
                dsimp only [onceCellSet]
                rw [if_neg hTF, if_neg hTF]
                by_cases hurl : ext.is_valid_url (cli.qdrant_url.getD "http://localhost:6333") = false
                · rw [if_pos hurl]
                  exact ⟨by simp, by simp, Or.inl rfl, Or.inr rfl, fun hb => Bool.noConfusion hb⟩
                · rw [if_neg hurl]
                  by_cases hci : ext.coreInitOk = false
                  · rw [if_pos hci]
                    exact ⟨by simp, by simp, Or.inr rfl, Or.inr rfl, fun hb => Bool.noConfusion hb⟩
                  · rw [if_neg hci]
                    by_cases hpi : ext.pluginInfoOk = false
                    · rw [if_pos hpi]
                      exact ⟨by simp, by simp, Or.inr rfl, Or.inr rfl, fun hb => Bool.noConfusion hb⟩
                    · rw [if_neg hpi]
                      refine ⟨by simp, by simp, Or.inr rfl, Or.inr rfl, fun _ => ?_⟩
                      exact ⟨rfl, by simp, by simp, rfl, rfl, rfl, by simp, by simp,
                        by simpa using hurl⟩


/-- C5: startup enforces exactly two model bindings: when the startup
checks are reached and the model names are absent, or the model names,
model aliases or context sizes number other than two, `main` returns an
ArgumentError with the core context never initialized and the server never
bound; and whenever the server is bound there is exactly one chat binding
and one embedding binding. -/
theorem main_exactly_two_bindings (ext : StartupExt) (cli : Cli) :
    (ext.addrParses (cli.socket_addr.getD DEFAULT_SOCKET_ADDRESS) = true →
      (cli.model_name = none ∨
        (∃ ns, cli.model_name = some ns ∧ ns.length ≠ 2) ∨
        (cli.model_alias.getD ["default", "embedding"]).length ≠ 2 ∨
        (cli.ctx_size.getD [4096, 384]).length ≠ 2) →
      (∃ msg, (mainRun ext cli).2 = .error (.ArgumentError msg)) ∧
        (mainRun ext cli).1.coreContextInit = false ∧
        (mainRun ext cli).1.serverBound = false) ∧
    ((mainRun ext cli).1.serverBound = true →
      (mainRun ext cli).1.chatModels.length = 1 ∧
      (mainRun ext cli).1.embeddingModels.length = 1) := by
  constructor
  · intro haddr hbad
    have h1 : ¬ (ext.addrParses (cli.socket_addr.getD DEFAULT_SOCKET_ADDRESS) = false) := by
      simp [haddr]
    unfold mainRun
    rw [if_neg h1]
    cases hmn : cli.model_name with
    | none =>
      exact ⟨⟨_, rfl⟩, rfl, rfl⟩
    | some ns =>
      dsimp only
      by_cases hlen : ns.length ≠ 2
      · rw [if_pos hlen]
        exact ⟨⟨_, rfl⟩, rfl, rfl⟩
      · rw [if_neg hlen]
        by_cases hal : (cli.model_alias.getD ["default", "embedding"]).length ≠ 2
        · rw [if_pos hal]
          exact ⟨⟨_, rfl⟩, rfl, rfl⟩
        · rw [if_neg hal]
          by_cases hctx : (cli.ctx_size.getD [4096, 384]).length ≠ 2
          · rw [if_pos hctx]
            exact ⟨⟨_, rfl⟩, rfl, rfl⟩
          · exfalso
            rcases hbad with h | ⟨ns2, hns2, hlen2⟩ | h | h
            · rw [hmn] at h
              exact Option.noConfusion h
            · rw [hmn] at hns2
              injection hns2 with he
              subst he
              exact hlen hlen2
            · exact hal h
            · exact hctx h
  · intro hb
    have h := (mainRun_state_inv ext cli).2.2.2.2 hb
    exact ⟨h.2.2.2.2.2.2.1, h.2.2.2.2.2.2.2.1⟩

/-- C6: the global system prompt and the vector-store configuration are
write-once: a second `OnceCell.set` on either cell fails and leaves the
stored value unchanged, `main` issues at most one set on each cell, and
when the server is bound each cell was set exactly once and holds the
startup value. -/
theorem config_write_once (ext : StartupExt) (cli : Cli) :
    (∀ (w v : String), onceCellSet (some w) v = (some w, false)) ∧
    (∀ (w v : QdrantConfig), onceCellSet (some w) v = (some w, false)) ∧
    (mainRun ext cli).1.systemPromptSets ≤ 1 ∧
    (mainRun ext cli).1.qdrantConfigSets ≤ 1 ∧
    ((mainRun ext cli).1.serverBound = true →
      (mainRun ext cli).1.systemPromptSets = 1 ∧
      (mainRun ext cli).1.qdrantConfigSets = 1 ∧
      (mainRun ext cli).1.globalSystemPrompt = some (cli.system_prompt.getD "") ∧
      (mainRun ext cli).1.qdrantConfig = some (qdrantConfigOf cli)) := by
  have h := mainRun_state_inv ext cli
  refine ⟨fun w v => rfl, fun w v => rfl, h.1, h.2.1, fun hb => ?_⟩
  have h5 := h.2.2.2.2 hb
  exact ⟨h5.2.1, h5.2.2.1, h5.2.2.2.1, h5.2.2.2.2.1⟩

/-- C7: if the configured Qdrant endpoint URL fails validation, the HTTP
server is never bound; and when startup reaches the URL check (all earlier
checks pass) an invalid URL makes `main` return an ArgumentError with the
server unbound. -/
theorem invalid_qdrant_url_fatal (ext : StartupExt) (cli : Cli) :
    (ext.is_valid_url (cli.qdrant_url.getD "http://localhost:6333") = false →
      (mainRun ext cli).1.serverBound = false) ∧
    (ext.addrParses (cli.socket_addr.getD DEFAULT_SOCKET_ADDRESS) = true →
      (∃ ns, cli.model_name = some ns ∧ ns.length = 2) →
      (cli.model_alias.getD ["default", "embedding"]).length = 2 →
      (cli.ctx_size.getD [4096, 384]).length = 2 →
      (∃ t, cli.prompt_template = some t ∧ validPromptTemplates.contains t = true) →
      ext.is_valid_url (cli.qdrant_url.getD "http://localhost:6333") = false →
      (∃ msg, (mainRun ext cli).2 = .error (.ArgumentError msg)) ∧
        (mainRun ext cli).1.serverBound = false) := by
  constructor
  · intro hu
    cases hsb : (mainRun ext cli).1.serverBound with
    | false => rfl
    | true =>
      have h5 := (mainRun_state_inv ext cli).2.2.2.2 hsb
      rw [h5.2.2.2.2.2.2.2.2] at hu
      exact Bool.noConfusion hu
  · rintro haddr ⟨ns, hmn, hlen⟩ hal hctx ⟨t, hpt, htp⟩ hurl
    have h1 : ¬ (ext.addrParses (cli.socket_addr.getD DEFAULT_SOCKET_ADDRESS) = false) := by
      simp [haddr]
    have hTF : ¬(true = false) := fun h => Bool.noConfusion h
    unfold mainRun
    rw [if_neg h1, hmn]
    dsimp only
    rw [if_neg (by simp [hlen]), if_neg (by simp [hal]), if_neg (by simp [hctx]), hpt]
    dsimp only
    rw [if_neg (fun hcon => hTF (htp ▸ hcon))]
    dsimp only [onceCellSet]
    rw [if_neg hTF, if_pos hurl]
    exact ⟨⟨_, rfl⟩, rfl⟩

/-- C10: when the qdrant command-line flags are omitted, the vector-store
configuration takes the defaults url `http://localhost:6333`, collection
`default`, limit `3` and score threshold `0.4 = 2/5`, and whatever
`QDRANT_CONFIG` ends up holding is exactly that default configuration. -/
theorem qdrant_config_defaults (ext : StartupExt) (cli : Cli)
    (hu : cli.qdrant_url = none) (hc : cli.qdrant_collection_name = none)
    (hl : cli.qdrant_limit = none) (ht : cli.qdrant_score_threshold = none) :
    qdrantConfigOf cli = ⟨"http://localhost:6333", "default", 3, 2/5⟩ ∧
    ((mainRun ext cli).1.qdrantConfig ≠ none →
      (mainRun ext cli).1.qdrantConfig =
        some ⟨"http://localhost:6333", "default", 3, 2/5⟩) := by
  have hq : qdrantConfigOf cli = ⟨"http://localhost:6333", "default", 3, 2/5⟩ := by
    simp [qdrantConfigOf, hu, hc, hl, ht]
  refine ⟨hq, fun hne => ?_⟩
  rcases (mainRun_state_inv ext cli).2.2.1 with h | h
  · exact absurd h hne
  · rw [h, hq]



/-- Witness for C5: one model name yields an ArgumentError with nothing
initialized; a correct command line yields one chat and one embedding
binding. -/
theorem main_exactly_two_bindings_witness :
    ((∃ msg, (mainRun extAllOk cliOneModel).2 = .error (.ArgumentError msg)) ∧
      (mainRun extAllOk cliOneModel).1.coreContextInit = false ∧
      (mainRun extAllOk cliOneModel).1.serverBound = false) ∧
    ((mainRun extAllOk cliGood).1.chatModels.length = 1 ∧
      (mainRun extAllOk cliGood).1.embeddingModels.length = 1) :=
  ⟨(main_exactly_two_bindings extAllOk cliOneModel).1 rfl
      (Or.inr (Or.inl ⟨["m1"], rfl, by decide⟩)),
   (main_exactly_two_bindings extAllOk cliGood).2 (by decide)⟩

/-- Witness for C6: second sets on populated cells fail without
overwriting; a full startup sets each cell exactly once. -/
theorem config_write_once_witness :
    onceCellSet (some "a") "b" = (some "a", false) ∧
    onceCellSet (some (qdrantConfigOf cliGood)) (qdrantConfigOf cliGood) =
      (some (qdrantConfigOf cliGood), false) ∧
    (mainRun extAllOk cliGood).1.systemPromptSets = 1 ∧
    (mainRun extAllOk cliGood).1.qdrantConfig = some (qdrantConfigOf cliGood) :=
  have h := config_write_once extAllOk cliGood
  ⟨h.1 "a" "b", h.2.1 (qdrantConfigOf cliGood) (qdrantConfigOf cliGood),
   (h.2.2.2.2 (by decide)).1, (h.2.2.2.2 (by decide)).2.2.2⟩

/-- Witness for C7: with URL validation rejecting everything, a correct
command line still produces an ArgumentError and the server is not
bound. -/
theorem invalid_qdrant_url_fatal_witness :
    (∃ msg, (mainRun extBadUrl cliGood).2 = .error (.ArgumentError msg)) ∧
    (mainRun extBadUrl cliGood).1.serverBound = false :=
  (invalid_qdrant_url_fatal extBadUrl cliGood).2 rfl ⟨["m1", "m2"], rfl, rfl⟩ rfl rfl
    ⟨"chatml", rfl, by decide⟩ rfl

/-- Witness for C10: the default command line stores the default Qdrant
configuration. -/
theorem qdrant_config_defaults_witness :
    qdrantConfigOf cliGood = ⟨"http://localhost:6333", "default", 3, 2/5⟩ ∧
    (mainRun extAllOk cliGood).1.qdrantConfig =
      some ⟨"http://localhost:6333", "default", 3, 2/5⟩ :=
  have h := qdrant_config_defaults extAllOk cliGood rfl rfl rfl rfl
  ⟨h.1, h.2 (by decide)⟩
/-- Counterexample for C2: the client filters and truncates but does not
re-sort (spec §4.4 assumes the store's response pre-sorted), so with a store
response ordered ascending the list handed to the pipeline is not strictly
descending by score. -/
theorem vsSearch_not_resorted :
    ¬ strictDescByScore
      (vsSearch (.ok [⟨"a", 1, "pa"⟩, ⟨"b", 2, "pb"⟩]) 3 0) := by decide

/-- C2 (amended): every document handed to the pipeline scores at least
`scoreThreshold` and the count is at most `limit`, regardless of server-side
filtering; the list is strictly descending by score provided the store's
response is strictly descending by score. -/
theorem vsSearch_spec (resp : Except Unit (List RetrievedDocument))
    (limit : Nat) (threshold : ℚ) :
    (∀ d ∈ vsSearch resp limit threshold, threshold ≤ d.score) ∧
    (vsSearch resp limit threshold).length ≤ limit ∧
    ((∀ l, resp = .ok l → strictDescByScore l) →
      strictDescByScore (vsSearch resp limit threshold)) := by
  refine ⟨?_, ?_, ?_⟩
  · intro d hd
    cases resp with
    | error e => simp [vsSearch] at hd
    | ok l =>
      simp only [vsSearch] at hd
      have h1 := List.mem_of_mem_take hd
      have h2 := List.of_mem_filter h1
      exact of_decide_eq_true h2
  · cases resp with
    | error e => simp [vsSearch]
    | ok l =>
      simp only [vsSearch, List.length_take]
      exact min_le_left _ _
  · intro hs
    cases resp with
    | error e => exact List.Pairwise.nil
    | ok l =>
      have hsl : strictDescByScore l := hs l rfl
      exact hsl.sublist ((List.take_sublist _ _).trans (List.filter_sublist _))

/-- Witness for C2 (amended): a strictly descending two-document response
above threshold is handed over whole, in order. -/
theorem vsSearch_spec_witness :
    (∀ d ∈ vsSearch (.ok [⟨"a", 2, "pa"⟩, ⟨"b", 1, "pb"⟩]) 3 0,
        (0 : ℚ) ≤ d.score) ∧
    (vsSearch (.ok [⟨"a", 2, "pa"⟩, ⟨"b", 1, "pb"⟩]) 3 0).length ≤ 3 ∧
    strictDescByScore (vsSearch (.ok [⟨"a", 2, "pa"⟩, ⟨"b", 1, "pb"⟩]) 3 0) :=
  have h := vsSearch_spec (.ok [⟨"a", 2, "pa"⟩, ⟨"b", 1, "pb"⟩]) 3 0
  ⟨h.1, h.2.1, h.2.2 (by intro l hl; cases hl; decide)⟩

/-- `keptSuffix` either drops everything or reaches a suffix that fits. -/
lemma keptSuffix_fits_or_nil {α : Type} (cost : α → Nat) (base budget : Nat) :
    ∀ l : List α, keptSuffix cost base budget l = [] ∨
      base + ((keptSuffix cost base budget l).map cost).sum ≤ budget := by
  intro l
  induction l with
  | nil => exact Or.inl rfl
  | cons a rest ih =>
    by_cases h : base + (cost a + (rest.map cost).sum) ≤ budget
    · right
      simp only [keptSuffix, if_pos h]
      simpa using h
    · simp only [keptSuffix, if_neg h]
      exact ih

/-- `dropDocsLowest` either drops every document or reaches a context that
fits. -/
lemma dropDocsLowest_fits_or_nil (tok : String → Nat) (base budget : Nat)
    (docs : List RetrievedDocument) :
    dropDocsLowest tok base budget docs = [] ∨
      base + ctxTokens tok (dropDocsLowest tok base budget docs) ≤ budget := by
  unfold dropDocsLowest
  rcases keptSuffix_fits_or_nil (docTokens tok) base budget docs.reverse with h | h
  · left
    rw [h]
    rfl
  · right
    rw [ctxTokens, List.map_reverse, List.sum_reverse]
    exact h

/-- `splitAtLastUser` really decomposes the history around its result. -/
lemma splitAtLastUser_eq :
    ∀ (hist pre : List ChatMessage) (u : ChatMessage) (post : List ChatMessage),
      splitAtLastUser hist = some (pre, u, post) → hist = pre ++ u :: post := by
  intro hist
  induction hist with
  | nil =>
    intro pre u post h
    exact Option.noConfusion h
  | cons m rest ih =>
    intro pre u post h
    rw [splitAtLastUser] at h
    split at h
    · rename_i pre1 u1 post1 heq
      simp only [Option.some.injEq, Prod.mk.injEq] at h
      obtain ⟨h1, h2, h3⟩ := h
      subst h1
      subst h2
      subst h3
      have := ih pre1 u1 post1 heq
      rw [this]
      rfl
    · rename_i heq
      split at h
      · simp only [Option.some.injEq, Prod.mk.injEq] at h
        obtain ⟨h1, h2, h3⟩ := h
        subst h1
        subst h2
        subst h3
        rfl
      · exact Option.noConfusion h


/-- The assembler fails exactly when the system prompt plus the latest user
message alone exceed the budget, whatever the documents are. -/
lemma assemble_error_iff (tok : String → Nat) (sys : String)
    (docs : List RetrievedDocument) (hist : List ChatMessage) (budget : Nat) :
    assemble tok sys docs hist budget = .error .validation ↔
      budget < tok sys + latestUserTokens tok hist := by
  have hp : promptTokens tok ⟨sys, docs, hist⟩ =
      tok sys + ctxTokens tok docs + histTokens tok hist := rfl
  unfold assemble
  split
  · -- everything fits
    rename_i hfit
    rcases hsp : splitAtLastUser hist with _ | ⟨pre, u, post⟩
    · have hlat : latestUserTokens tok hist = 0 := by
        simp [latestUserTokens, lastUserContent, hsp]
      rw [hlat]
      exact iff_of_false (fun hc => Except.noConfusion hc) (by omega)
    · have hlat : latestUserTokens tok hist = tok u.content := by
        simp [latestUserTokens, lastUserContent, hsp]
      have hdec := splitAtLastUser_eq hist pre u post hsp
      have hh : histTokens tok hist =
          histTokens tok pre + (msgTokens tok u + histTokens tok post) := by
        rw [hdec]
        simp [histTokens, List.map_append]
      have hmt : msgTokens tok u = tok u.content := rfl
      rw [hlat]
      exact iff_of_false (fun hc => Except.noConfusion hc) (by omega)
  · rename_i hnfit
    split
    · -- no user message
      rename_i hsp
      have hlat : latestUserTokens tok hist = 0 := by
        simp [latestUserTokens, lastUserContent, hsp]
      rw [hlat]
      dsimp only
      split
      · -- some history kept
        rename_i hne
        rcases keptSuffix_fits_or_nil (msgTokens tok)
            (tok sys + ctxTokens tok docs) budget hist with h | h
        · exact absurd h hne
        · exact iff_of_false (fun hc => Except.noConfusion hc) (by omega)
      · split
        · -- context kept after dropping
          rename_i hfit2
          exact iff_of_false (fun hc => Except.noConfusion hc) (by omega)
        · -- fatal
          rename_i hnot
          rcases dropDocsLowest_fits_or_nil tok (tok sys) budget docs with h | h
          · rw [h] at hnot
            have hz : ctxTokens tok ([] : List RetrievedDocument) = 0 := rfl
            exact iff_of_true rfl (by omega)
          · exact absurd h hnot
    · -- latest user message exists
      rename_i pre u post hsp
      have hlat : latestUserTokens tok hist = tok u.content := by
        simp [latestUserTokens, lastUserContent, hsp]
      have hmt : msgTokens tok u = tok u.content := rfl
      rw [hlat]
      dsimp only
      split
      · -- kept a suffix of pre
        rename_i hne
        rcases keptSuffix_fits_or_nil (msgTokens tok)
            (tok sys + ctxTokens tok docs + msgTokens tok u + histTokens tok post)
            budget pre with h | h
        · exact absurd h hne
        · exact iff_of_false (fun hc => Except.noConfusion hc) (by omega)
      · split
        · -- kept a suffix of post
          rename_i hne
          rcases keptSuffix_fits_or_nil (msgTokens tok)
              (tok sys + ctxTokens tok docs + msgTokens tok u) budget post with h | h
          · exact absurd h hne
          · exact iff_of_false (fun hc => Except.noConfusion hc) (by omega)
        · split
          · -- just the latest user message fits with full context
            rename_i hfit3
            exact iff_of_false (fun hc => Except.noConfusion hc) (by omega)
          · split
            · -- context kept after dropping
              rename_i hfit4
              exact iff_of_false (fun hc => Except.noConfusion hc) (by omega)
            · -- fatal
              rename_i hnot
              rcases dropDocsLowest_fits_or_nil tok
                  (tok sys + msgTokens tok u) budget docs with h | h
              · rw [h] at hnot
                have hz : ctxTokens tok ([] : List RetrievedDocument) = 0 := rfl
                exact iff_of_true rfl (by omega)
              · exact absurd h hnot

/-- A failing embedding call, or a failing store call after a successful
embedding, retrieves an empty context and records a degradation event. -/
lemma retrieveDocs_fail (cfg : RagConfig) (O : PipelineOracles)
    (msgs : List ChatMessage) (q : String)
    (hq : lastUserContent msgs = some q)
    (hfail : O.embed q = .error () ∨
      ∃ v, O.embed q = .ok v ∧ O.storeSearch v = .error ()) :
    retrieveDocs cfg O msgs = ([], true) := by
  unfold retrieveDocs
  rw [hq]
  dsimp only
  rcases hfail with h | ⟨v, hv, hs⟩
  · rw [h]
  · rw [hv]
    dsimp only
    rw [hs]

/-- C3: the prompt assembler fails exactly when the system prompt plus the
latest user message alone exceed the budget (its single fatal condition);
for every valid request over that bound the pipeline answers with
ValidationError and the Generation Client is never called. -/
theorem budget_fatal_validation :
    (∀ (tok : String → Nat) (sys : String) (docs : List RetrievedDocument)
        (hist : List ChatMessage) (budget : Nat),
      assemble tok sys docs hist budget = .error .validation ↔
        budget < tok sys + latestUserTokens tok hist) ∧
    (∀ (cfg : RagConfig) (O : PipelineOracles) (req : GenerationRequest),
      req.model = cfg.chatAlias → req.messages ≠ [] →
      cfg.ctxSize < cfg.tok cfg.systemPrompt + latestUserTokens cfg.tok req.messages →
      (ragPipeline cfg O req).result = .error (.validation "prompt assembly failed") ∧
      (ragPipeline cfg O req).genCalled = false) := by
  refine ⟨assemble_error_iff, ?_⟩
  intro cfg O req hmodel hmsgs hover
  have hcond : ¬(req.model ≠ cfg.chatAlias ∨ req.messages = []) := by
    push_neg
    exact ⟨hmodel, hmsgs⟩
  have herr := (assemble_error_iff cfg.tok cfg.systemPrompt
      (retrieveDocs cfg O req.messages).1 req.messages cfg.ctxSize).mpr hover
  unfold ragPipeline
  rw [if_neg hcond]
  dsimp only
  rw [herr]
  exact ⟨rfl, rfl⟩

/-- Witness for C3: a 10-character system prompt plus a 5-character latest
user message against a budget of 5 fail assembly with ValidationError and
never reach generation. -/
theorem budget_fatal_validation_witness :
    (assemble String.length "0123456789" [] [⟨Role.user, "hello"⟩] 5 =
        .error .validation ↔
      5 < String.length "0123456789" +
        latestUserTokens String.length [⟨Role.user, "hello"⟩]) ∧
    (ragPipeline cfgSmall oraclesOk reqHello).result =
      .error (.validation "prompt assembly failed") ∧
    (ragPipeline cfgSmall oraclesOk reqHello).genCalled = false :=
  ⟨budget_fatal_validation.1 String.length "0123456789" [] [⟨Role.user, "hello"⟩] 5,
   budget_fatal_validation.2 cfgSmall oraclesOk reqHello rfl (by decide) (by decide)⟩

/-- C1: with a valid request carrying a user message, an embedding or
vector-store failure records a degradation event and the pipeline continues
to prompt assembly with an empty context: the caller-visible result equals
the empty-context continuation (the failure by itself never produces a
caller-visible error), and whenever empty-context assembly and generation
succeed, a generation result built from the conversation history alone is
returned. -/
theorem retrieval_failure_degrades (cfg : RagConfig) (O : PipelineOracles)
    (req : GenerationRequest)
    (hmodel : req.model = cfg.chatAlias) (hmsgs : req.messages ≠ [])
    (q : String) (hq : lastUserContent req.messages = some q)
    (hfail : O.embed q = .error () ∨
      ∃ v, O.embed q = .ok v ∧ O.storeSearch v = .error ()) :
    (ragPipeline cfg O req).degraded = true ∧
    (ragPipeline cfg O req).result = emptyContextResult cfg O req ∧
    (∀ p out,
      assemble cfg.tok cfg.systemPrompt [] req.messages cfg.ctxSize = .ok p →
      O.generate p req.params = .ok out →
      (ragPipeline cfg O req).result = .ok out) := by
  have hcond : ¬(req.model ≠ cfg.chatAlias ∨ req.messages = []) := by
    push_neg
    exact ⟨hmodel, hmsgs⟩
  have hr := retrieveDocs_fail cfg O req.messages q hq hfail
  have key : (ragPipeline cfg O req).degraded = true ∧
      (ragPipeline cfg O req).result = emptyContextResult cfg O req := by
    unfold ragPipeline emptyContextResult
    rw [if_neg hcond, hr]
    dsimp only
    cases assemble cfg.tok cfg.systemPrompt [] req.messages cfg.ctxSize with
    | error e => exact ⟨rfl, rfl⟩
    | ok p =>
      dsimp only
      cases O.generate p req.params with
      | error e => exact ⟨rfl, rfl⟩
      | ok out => exact ⟨rfl, rfl⟩
  refine ⟨key.1, key.2, fun p out ha hg => ?_⟩
  have he : emptyContextResult cfg O req = .ok out := by
    unfold emptyContextResult
    rw [ha]
    dsimp only
    rw [hg]
  exact key.2.trans he

/-- Witness for C1: with a failing embedding oracle the pipeline records
degradation and still returns the generation outcome. -/
theorem retrieval_failure_degrades_witness :
    (ragPipeline cfgLarge oraclesEmbedFail reqHello).degraded = true ∧
    (ragPipeline cfgLarge oraclesEmbedFail reqHello).result = .ok (.complete "OK") :=
  have h := retrieval_failure_degrades cfgLarge oraclesEmbedFail reqHello rfl
    (by decide) "hello" (by decide) (Or.inl rfl)
  ⟨h.1, h.2.2 ⟨"", [], [⟨Role.user, "hello"⟩]⟩ (.complete "OK") rfl rfl⟩

end RagServer
